import Mathlib

/-!
# Verification of `internal/transport/slack.go`

A shallow embedding of the Slack transport package: the configuration loader
`NewSlackConfigFromEnv`, the client factory `NewSlackClient`, the bot runner
`SlackServer.Run` and the debug logging adapter `debugLogger.Output`.

Go strings are Lean strings, a Go `error` result is an `Option GoError`
(`none` is `nil`), and a function with a `(T, error)` result returns a pair.
The process environment is a lookup function, the effects on loggers and on
the socket client are recorded in an explicit trace that is passed through.
The trace holds the entries that are written: a logger writes an entry only
when it has a writer and the entry's severity is below neither the logger's
level nor the global level. The socket client's `RunContext` passes the lines
the external library logs back to the adapter the client was built with.
-/

namespace Transport

/-! ## Go runtime values used by the package -/

/-- Go `error` value created by `errors.New`: it carries its message. -/
structure GoError where
  msg : String
  deriving DecidableEq, Repr

/-- Process environment: for each variable name, its value when it is set. -/
abbrev Env := String → Option String

/-- Go `os.LookupEnv`: the value and whether the variable is set. An unset
variable yields the empty string and `false`. -/
def LookupEnv (env : Env) (key : String) : String × Bool :=
  match env key with
  | some v => (v, true)
  | none => ("", false)

/-- Environment given by a list of bindings, the first binding of a name wins. -/
def envOfList (bindings : List (String × String)) : Env :=
  fun key => (bindings.find? (fun kv => kv.1 == key)).map Prod.snd

/-- Go `strings.Contains` on the characters of the two strings. -/
def containsStr (s sub : String) : Prop :=
  sub.toList <:+: s.toList

instance (s sub : String) : Decidable (containsStr s sub) := by
  unfold containsStr
  infer_instance

/-! ## Configuration loader -/

/-- Go `SlackConfig` struct. -/
structure SlackConfig where
  appToken : String
  authToken : String
  channelID : String
  deriving DecidableEq, Repr

/-- Go composite literal `SlackConfig{}`: every field is the empty string. -/
def SlackConfig.zero : SlackConfig :=
  { appToken := "", authToken := "", channelID := "" }

/-- Go `NewSlackConfigFromEnv`. -/
def NewSlackConfigFromEnv (env : Env) : SlackConfig × Option GoError :=
  let (appToken, exists₁) := LookupEnv env "SLACK_APP_TOKEN"
  if !exists₁ then
    (SlackConfig.zero, some ⟨"SLACK_APP_TOKEN environment variable not set"⟩)
  else
    let (authToken, exists₂) := LookupEnv env "SLACK_AUTH_TOKEN"
    if !exists₂ then
      (SlackConfig.zero, some ⟨"SLACK_AUTH_TOKEN environment variable not set"⟩)
    else
      let (channelID, exists₃) := LookupEnv env "SLACK_CHANNEL_ID"
      if !exists₃ then
        (SlackConfig.zero, some ⟨"SLACK_CHANNEL_ID environment variable not set"⟩)
      else
        ({ appToken := appToken, authToken := authToken, channelID := channelID }, none)

/-- The three variables the loader reads, in the order it reads them. -/
def requiredVars : List String :=
  ["SLACK_APP_TOKEN", "SLACK_AUTH_TOKEN", "SLACK_CHANNEL_ID"]

/-- The message of the error for a variable that is not set. -/
def notSetMessage (name : String) : String :=
  name ++ " environment variable not set"

/-- The configuration invariant of the data model: no field is empty. -/
def SlackConfig.allNonEmpty (c : SlackConfig) : Prop :=
  c.appToken ≠ "" ∧ c.authToken ≠ "" ∧ c.channelID ≠ ""

instance (c : SlackConfig) : Decidable c.allNonEmpty := by
  unfold SlackConfig.allNonEmpty
  infer_instance

/-- First variable of a list of names that is not set in the environment. -/
def firstAbsent (env : Env) : List String → Option String
  | [] => none
  | v :: rest => if (env v).isNone then some v else firstAbsent env rest

/-! ## Structured logger and the trace of effects -/

/-- Modelled from the spec: the severities of the external structured logging
library, absent from src/, lowest first; `disabled` is the threshold that
admits nothing. -/
inductive Level where
  | trace
  | debug
  | info
  | warn
  | error
  | fatal
  | panic
  | noLevel
  | disabled
  deriving DecidableEq, Repr

/-- Position of a severity in the library's order. -/
def Level.rank : Level → Nat
  | .trace => 0
  | .debug => 1
  | .info => 2
  | .warn => 3
  | .error => 4
  | .fatal => 5
  | .panic => 6
  | .noLevel => 7
  | .disabled => 8

/-- Modelled from the spec: the logger value of the external structured logging
library, absent from src/: the writer it writes to (`none` for the zero-value
logger, which has no writer), its minimum level, and the context fields
attached to every entry written through it. -/
structure Logger where
  writer : Option Nat
  level : Level
  fields : List (String × String)
  deriving DecidableEq, Repr

/-- Modelled from the spec: the child logger `l.With().Str(key, val).Logger()`
of the external library, absent from src/: the same writer and level, one more
context field. -/
def Logger.withStr (l : Logger) (key val : String) : Logger :=
  { l with fields := l.fields ++ [(key, val)] }

/-- Modelled from the spec: the filter of the external library, absent from
src/: an entry of severity `lvl` is written when the logger has a writer and
`lvl` is below neither the logger's level nor the process-wide level
`globalLevel`. -/
def Logger.should (globalLevel : Level) (l : Logger) (lvl : Level) : Bool :=
  l.writer.isSome && decide (l.level.rank ≤ lvl.rank)
    && decide (globalLevel.rank ≤ lvl.rank)

/-- One entry written through a logger. -/
structure LogEntry where
  logger : Logger
  level : Level
  message : String
  deriving DecidableEq, Repr

/-- Go `debugLogger` struct. -/
structure debugLogger where
  logger : Logger
  deriving DecidableEq, Repr

/-- Go `newDebugLogger`. -/
def newDebugLogger (logger : Logger) : debugLogger :=
  { logger := logger }

/-! ## The external Slack client library -/

/-- Modelled from the spec: the API client of the external Slack library,
absent from src/. It holds the authentication token, the application-level
token, the debug switch and the logger set by an option (`none` is the
library's own default logger). -/
structure SlackClient where
  token : String
  appLevelToken : String
  debug : Bool
  log : Option debugLogger
  deriving DecidableEq, Repr

/-- Modelled from the spec: the options of the external API client that the
package passes, absent from src/. -/
inductive SlackOption where
  | OptionLog (l : debugLogger)
  | OptionDebug (b : Bool)
  | OptionAppLevelToken (token : String)
  deriving DecidableEq, Repr

/-- Modelled from the spec: the effect of one option on the API client, absent
from src/; each option sets the one setting it is named after. -/
def SlackOption.apply (c : SlackClient) : SlackOption → SlackClient
  | .OptionLog l => { c with log := some l }
  | .OptionDebug b => { c with debug := b }
  | .OptionAppLevelToken t => { c with appLevelToken := t }

/-- Modelled from the spec: the constructor `slack.New(token, options...)` of
the external library, absent from src/. The options are applied in order to a
client holding the authentication token. -/
def slackNew (token : String) (options : List SlackOption) : SlackClient :=
  options.foldl SlackOption.apply
    { token := token, appLevelToken := "", debug := false, log := none }

/-- Modelled from the spec: the socket-mode client of the external library,
absent from src/. It wraps the API client and has a debug switch and a logger
of its own. -/
structure SocketmodeClient where
  api : SlackClient
  debug : Bool
  log : Option debugLogger
  deriving DecidableEq, Repr

/-- Modelled from the spec: the socket-mode options the package passes, absent
from src/. -/
inductive SocketmodeOption where
  | OptionDebug (b : Bool)
  | OptionLog (l : debugLogger)
  deriving DecidableEq, Repr

/-- Modelled from the spec: the effect of one socket-mode option, absent from
src/. -/
def SocketmodeOption.apply (c : SocketmodeClient) : SocketmodeOption → SocketmodeClient
  | .OptionDebug b => { c with debug := b }
  | .OptionLog l => { c with log := some l }

/-- Modelled from the spec: the constructor `socketmode.New(api, options...)`
of the external library, absent from src/. -/
def socketmodeNew (api : SlackClient) (options : List SocketmodeOption) : SocketmodeClient :=
  options.foldl SocketmodeOption.apply { api := api, debug := false, log := none }

/-- Effects of the package on its collaborators: an entry written through a
logger, or a call of the socket client's `RunContext`. -/
inductive Event (Ctx : Type) where
  | log (entry : LogEntry)
  | runContext (client : SocketmodeClient) (ctx : Ctx)
  deriving DecidableEq, Repr

/-- The effects so far, oldest first. -/
abbrev Trace (Ctx : Type) := List (Event Ctx)

/-- Modelled from the spec: `l.<Level>().Msg(message)` of the external logging
library, absent from src/: the entry is written when the filter admits its
severity, and nothing happens otherwise. -/
def Logger.msg {Ctx : Type} (globalLevel : Level) (l : Logger) (lvl : Level)
    (message : String) (t : Trace Ctx) : Trace Ctx :=
  if l.should globalLevel lvl then
    t ++ [Event.log { logger := l, level := lvl, message := message }]
  else t

/-- The log entries of a trace that were written through a given logger. -/
def entriesOn {Ctx : Type} (l : Logger) (t : Trace Ctx) : List LogEntry :=
  t.filterMap fun e =>
    match e with
    | .log entry => if entry.logger = l then some entry else none
    | .runContext _ _ => none

/-- The log entries of a trace written through a given logger at a given
severity. -/
def entriesAt {Ctx : Type} (l : Logger) (lvl : Level) (t : Trace Ctx) : List LogEntry :=
  (entriesOn l t).filter fun entry => decide (entry.level = lvl)

/-- The calls of `RunContext` in a trace: the client and the context of each. -/
def runContextCalls {Ctx : Type} (t : Trace Ctx) : List (SocketmodeClient × Ctx) :=
  t.filterMap fun e =>
    match e with
    | .log _ => none
    | .runContext client ctx => some (client, ctx)

/-! ## Client factory, bot runner and debug adapter -/

/-- Go `debugLogger.Output`. -/
def debugLogger.Output {Ctx : Type} (globalLevel : Level) (l : debugLogger) (_i : Int)
    (msg : String) (t : Trace Ctx) : Option GoError × Trace Ctx :=
  let t₁ := l.logger.msg globalLevel Level.debug msg t
  (none, t₁)

/-- Go `NewSlackClient`. -/
def NewSlackClient (config : SlackConfig) (logger : Logger) : SocketmodeClient :=
  let debugLog := newDebugLogger (logger.withStr "bot" "slack_socket")
  let client := slackNew config.authToken
    [ SlackOption.OptionLog debugLog,
      SlackOption.OptionDebug true,
      SlackOption.OptionAppLevelToken config.appToken ]
  socketmodeNew client
    [ SocketmodeOption.OptionDebug true,
      SocketmodeOption.OptionLog debugLog ]

/-- The two layers of the external client that log. -/
inductive Layer where
  | api
  | socket
  deriving DecidableEq, Repr

/-- One line the external library logs while it runs: the layer that logs it,
the call depth and the message it passes to the logging capability. -/
structure LibLine where
  layer : Layer
  depth : Int
  msg : String
  deriving DecidableEq, Repr

/-- The logging adapter a layer of the client was built with, if any. -/
def SocketmodeClient.adapter (c : SocketmodeClient) : Layer → Option debugLogger
  | .api => c.api.log
  | .socket => c.log

/-- One line of the library reaching the package: it is passed to `Output` of
the adapter of its layer; a layer without adapter logs elsewhere. -/
def libOutput {Ctx : Type} (globalLevel : Level) (c : SocketmodeClient) (line : LibLine)
    (t : Trace Ctx) : Trace Ctx :=
  match c.adapter line.layer with
  | some d => (d.Output globalLevel line.depth line.msg t).2
  | none => t

/-- Modelled from the spec: the client's `RunContext(ctx)` of the external
library, absent from src/. What the library does is the parameter `lib`: the
lines it logs while it runs and the error it returns. The call is recorded,
then each line is passed to the adapter the client was built with. -/
def SocketmodeClient.RunContext {Ctx : Type}
    (lib : SocketmodeClient → Ctx → List LibLine × Option GoError) (globalLevel : Level)
    (c : SocketmodeClient) (ctx : Ctx) (t : Trace Ctx) : Option GoError × Trace Ctx :=
  let t₁ := t ++ [Event.runContext c ctx]
  ((lib c ctx).2, (lib c ctx).1.foldl (fun acc line => libOutput globalLevel c line acc) t₁)

/-- Go `SlackServer` struct. -/
structure SlackServer where
  client : SocketmodeClient
  logger : Logger
  deriving DecidableEq, Repr

/-- Go `Bot` interface: the single method `Run(ctx) error`. -/
structure Bot (Ctx : Type) where
  Run : Ctx → Trace Ctx → Option GoError × Trace Ctx

/-- Go `SlackServer.Run`. -/
def SlackServer.Run {Ctx : Type}
    (lib : SocketmodeClient → Ctx → List LibLine × Option GoError) (globalLevel : Level)
    (s : SlackServer) (ctx : Ctx) (t : Trace Ctx) : Option GoError × Trace Ctx :=
  let t₁ := s.logger.msg globalLevel Level.info "🚀 Starting Slack Server" t
  s.client.RunContext lib globalLevel ctx t₁

/-- Go `NewSlackBot`: the `SlackServer` behind the `Bot` interface. -/
def NewSlackBot {Ctx : Type}
    (lib : SocketmodeClient → Ctx → List LibLine × Option GoError) (globalLevel : Level)
    (client : SocketmodeClient) (logger : Logger) : Bot Ctx :=
  { Run := SlackServer.Run lib globalLevel { client := client, logger := logger } }

/-! ## Concrete loggers, clients and library behaviours -/

/-- Logger with a writer and minimum level debug. -/
def debugLevelLogger : Logger :=
  { writer := some 1, level := Level.debug, fields := [] }

/-- Logger with a writer and minimum level info: it filters debug entries. -/
def infoLevelLogger : Logger :=
  { writer := some 1, level := Level.info, fields := [] }

/-- Logger with a writer and minimum level warn: it filters info entries. -/
def warnLevelLogger : Logger :=
  { writer := some 1, level := Level.warn, fields := [("app", "binomeme")] }

/-- Client built by the factory from a configuration and the debug-level logger. -/
def sampleClient : SocketmodeClient :=
  NewSlackClient { appToken := "xapp-1", authToken := "xoxb-2", channelID := "C03" }
    debugLevelLogger

/-- Library behaviour that logs one line on each layer and returns an error. -/
def sampleLib : SocketmodeClient → Nat → List LibLine × Option GoError :=
  fun _ _ =>
    ([{ layer := Layer.socket, depth := 2, msg := "connecting" },
      { layer := Layer.api, depth := 3, msg := "auth.test" }],
     some { msg := "context canceled" })

/-! ## Concrete environments -/

/-- Environment with the application and authentication tokens, no channel. -/
def envNoChannel : Env :=
  envOfList [("SLACK_APP_TOKEN", "a"), ("SLACK_AUTH_TOKEN", "b")]

/-- Environment with all three variables set to non-empty values. -/
def envFull : Env :=
  envOfList [("SLACK_APP_TOKEN", "xapp-1"), ("SLACK_AUTH_TOKEN", " xoxb-2 "),
    ("SLACK_CHANNEL_ID", "C03")]

/-- Environment with only the channel set: the first two variables are absent. -/
def envOnlyChannel : Env :=
  envOfList [("SLACK_CHANNEL_ID", "C03")]

/-- Environment in which the application token is set to the empty string. -/
def envEmptyAppToken : Env :=
  envOfList [("SLACK_APP_TOKEN", ""), ("SLACK_AUTH_TOKEN", "b"), ("SLACK_CHANNEL_ID", "c")]

/-- Environment with the application token set and the authentication token absent. -/
def envNoAuth : Env :=
  envOfList [("SLACK_APP_TOKEN", "a"), ("SLACK_CHANNEL_ID", "c")]

/-- Environment in which the channel is set to the empty string. -/
def envEmptyChannel : Env :=
  envOfList [("SLACK_APP_TOKEN", "a"), ("SLACK_AUTH_TOKEN", "b"), ("SLACK_CHANNEL_ID", "")]

/-! ## Lemmas on the configuration loader -/

lemma NewSlackConfigFromEnv_app_absent (env : Env) (h : env "SLACK_APP_TOKEN" = none) :
    NewSlackConfigFromEnv env
      = (SlackConfig.zero, some ⟨"SLACK_APP_TOKEN environment variable not set"⟩) := by
  simp [NewSlackConfigFromEnv, LookupEnv, h]

lemma NewSlackConfigFromEnv_auth_absent (env : Env) (a : String)
    (ha : env "SLACK_APP_TOKEN" = some a) (h : env "SLACK_AUTH_TOKEN" = none) :
    NewSlackConfigFromEnv env
      = (SlackConfig.zero, some ⟨"SLACK_AUTH_TOKEN environment variable not set"⟩) := by
  simp [NewSlackConfigFromEnv, LookupEnv, ha, h]

lemma NewSlackConfigFromEnv_channel_absent (env : Env) (a b : String)
    (ha : env "SLACK_APP_TOKEN" = some a) (hb : env "SLACK_AUTH_TOKEN" = some b)
    (h : env "SLACK_CHANNEL_ID" = none) :
    NewSlackConfigFromEnv env
      = (SlackConfig.zero, some ⟨"SLACK_CHANNEL_ID environment variable not set"⟩) := by
  simp [NewSlackConfigFromEnv, LookupEnv, ha, hb, h]

lemma NewSlackConfigFromEnv_all_set (env : Env) (a b c : String)
    (ha : env "SLACK_APP_TOKEN" = some a) (hb : env "SLACK_AUTH_TOKEN" = some b)
    (hc : env "SLACK_CHANNEL_ID" = some c) :
    NewSlackConfigFromEnv env
      = ({ appToken := a, authToken := b, channelID := c }, none) := by
  simp [NewSlackConfigFromEnv, LookupEnv, ha, hb, hc]

/-- The four outcomes of the loader, by the first variable that is absent. -/
lemma NewSlackConfigFromEnv_cases (env : Env) :
    (env "SLACK_APP_TOKEN" = none ∧ NewSlackConfigFromEnv env
        = (SlackConfig.zero, some ⟨"SLACK_APP_TOKEN environment variable not set"⟩))
    ∨ (∃ a, env "SLACK_APP_TOKEN" = some a ∧ env "SLACK_AUTH_TOKEN" = none ∧
        NewSlackConfigFromEnv env
          = (SlackConfig.zero, some ⟨"SLACK_AUTH_TOKEN environment variable not set"⟩))
    ∨ (∃ a b, env "SLACK_APP_TOKEN" = some a ∧ env "SLACK_AUTH_TOKEN" = some b ∧
        env "SLACK_CHANNEL_ID" = none ∧ NewSlackConfigFromEnv env
          = (SlackConfig.zero, some ⟨"SLACK_CHANNEL_ID environment variable not set"⟩))
    ∨ (∃ a b c, env "SLACK_APP_TOKEN" = some a ∧ env "SLACK_AUTH_TOKEN" = some b ∧
        env "SLACK_CHANNEL_ID" = some c ∧ NewSlackConfigFromEnv env
          = ({ appToken := a, authToken := b, channelID := c }, none)) := by
  cases ha : env "SLACK_APP_TOKEN" with
  | none => exact Or.inl ⟨rfl, NewSlackConfigFromEnv_app_absent env ha⟩
  | some a =>
    cases hb : env "SLACK_AUTH_TOKEN" with
    | none => exact Or.inr (Or.inl ⟨a, rfl, rfl, NewSlackConfigFromEnv_auth_absent env a ha hb⟩)
    | some b =>
      cases hc : env "SLACK_CHANNEL_ID" with
      | none =>
        exact Or.inr (Or.inr (Or.inl
          ⟨a, b, rfl, rfl, rfl, NewSlackConfigFromEnv_channel_absent env a b ha hb hc⟩))
      | some c =>
        exact Or.inr (Or.inr (Or.inr
          ⟨a, b, c, rfl, rfl, rfl, NewSlackConfigFromEnv_all_set env a b c ha hb hc⟩))

lemma firstAbsent_requiredVars (env : Env) :
    firstAbsent env requiredVars =
      if (env "SLACK_APP_TOKEN").isNone then some "SLACK_APP_TOKEN"
      else if (env "SLACK_AUTH_TOKEN").isNone then some "SLACK_AUTH_TOKEN"
      else if (env "SLACK_CHANNEL_ID").isNone then some "SLACK_CHANNEL_ID"
      else none := by
  simp [firstAbsent, requiredVars]

/-! ## Configuration loader: the claims -/

/-- C1: when one of the three variables is absent and the other two are set,
`NewSlackConfigFromEnv` returns an error whose message is
"<NAME> environment variable not set" for that variable; the message contains
the absent variable's name and neither of the other two names. -/
theorem missing_variable_is_named (env : Env) (v : String) (hv : v ∈ requiredVars)
    (habsent : env v = none) (hothers : ∀ w ∈ requiredVars, w ≠ v → env w ≠ none) :
    (NewSlackConfigFromEnv env).2 = some ⟨notSetMessage v⟩
      ∧ containsStr (notSetMessage v) v
      ∧ ∀ w ∈ requiredVars, w ≠ v → ¬ containsStr (notSetMessage v) w := by
  simp only [requiredVars, List.mem_cons, List.mem_singleton, List.not_mem_nil, or_false] at hv
  rcases hv with rfl | rfl | rfl
  · refine ⟨?_, by decide, ?_⟩
    · rw [NewSlackConfigFromEnv_app_absent env habsent]; rfl
    · intro w hw hne
      simp only [requiredVars, List.mem_cons, List.mem_singleton, List.not_mem_nil,
        or_false] at hw
      rcases hw with rfl | rfl | rfl
      · exact absurd rfl hne
      · decide
      · decide
  · have ha : env "SLACK_APP_TOKEN" ≠ none :=
      hothers "SLACK_APP_TOKEN" (by simp [requiredVars]) (by decide)
    obtain ⟨a, ha⟩ := Option.ne_none_iff_exists'.mp ha
    refine ⟨?_, by decide, ?_⟩
    · rw [NewSlackConfigFromEnv_auth_absent env a ha habsent]; rfl
    · intro w hw hne
      simp only [requiredVars, List.mem_cons, List.mem_singleton, List.not_mem_nil,
        or_false] at hw
      rcases hw with rfl | rfl | rfl
      · decide
      · exact absurd rfl hne
      · decide
  · have ha : env "SLACK_APP_TOKEN" ≠ none :=
      hothers "SLACK_APP_TOKEN" (by simp [requiredVars]) (by decide)
    have hb : env "SLACK_AUTH_TOKEN" ≠ none :=
      hothers "SLACK_AUTH_TOKEN" (by simp [requiredVars]) (by decide)
    obtain ⟨a, ha⟩ := Option.ne_none_iff_exists'.mp ha
    obtain ⟨b, hb⟩ := Option.ne_none_iff_exists'.mp hb
    refine ⟨?_, by decide, ?_⟩
    · rw [NewSlackConfigFromEnv_channel_absent env a b ha hb habsent]; rfl
    · intro w hw hne
      simp only [requiredVars, List.mem_cons, List.mem_singleton, List.not_mem_nil,
        or_false] at hw
      rcases hw with rfl | rfl | rfl
      · decide
      · decide
      · exact absurd rfl hne

/-- C1 at the scenario of the specification: the application and authentication
tokens are set, the channel is missing. -/
theorem missing_variable_is_named_witness :
    (NewSlackConfigFromEnv envNoChannel).2
        = some ⟨notSetMessage "SLACK_CHANNEL_ID"⟩
      ∧ containsStr (notSetMessage "SLACK_CHANNEL_ID") "SLACK_CHANNEL_ID"
      ∧ ∀ w ∈ requiredVars, w ≠ "SLACK_CHANNEL_ID" →
          ¬ containsStr (notSetMessage "SLACK_CHANNEL_ID") w :=
  missing_variable_is_named envNoChannel "SLACK_CHANNEL_ID" (by decide) (by decide)
    (by decide)

/-- C2: when the three variables are set to non-empty strings a, b and c,
`NewSlackConfigFromEnv` returns no error and the configuration whose fields are
a, b and c unchanged. -/
theorem all_set_returns_exact_values (env : Env) (a b c : String)
    (ha : env "SLACK_APP_TOKEN" = some a) (hb : env "SLACK_AUTH_TOKEN" = some b)
    (hc : env "SLACK_CHANNEL_ID" = some c)
    (_hane : a ≠ "") (_hbne : b ≠ "") (_hcne : c ≠ "") :
    (NewSlackConfigFromEnv env).2 = none
      ∧ (NewSlackConfigFromEnv env).1.appToken = a
      ∧ (NewSlackConfigFromEnv env).1.authToken = b
      ∧ (NewSlackConfigFromEnv env).1.channelID = c := by
  rw [NewSlackConfigFromEnv_all_set env a b c ha hb hc]
  exact ⟨rfl, rfl, rfl, rfl⟩

/-- C2 at an environment whose authentication token has surrounding blanks:
the blanks are kept. -/
theorem all_set_returns_exact_values_witness :
    (NewSlackConfigFromEnv envFull).2 = none
      ∧ (NewSlackConfigFromEnv envFull).1.appToken = "xapp-1"
      ∧ (NewSlackConfigFromEnv envFull).1.authToken = " xoxb-2 "
      ∧ (NewSlackConfigFromEnv envFull).1.channelID = "C03" :=
  all_set_returns_exact_values envFull "xapp-1" " xoxb-2 " "C03" (by decide) (by decide)
    (by decide) (by decide) (by decide) (by decide)

/-- C3: when at least one of the three variables is absent, the error names the
first absent variable in the order SLACK_APP_TOKEN, SLACK_AUTH_TOKEN,
SLACK_CHANNEL_ID, whatever the later variables are. -/
theorem error_names_first_absent (env : Env) (h : ∃ w ∈ requiredVars, env w = none) :
    ∃ v, firstAbsent env requiredVars = some v
      ∧ (NewSlackConfigFromEnv env).2 = some ⟨notSetMessage v⟩ := by
  rw [firstAbsent_requiredVars]
  rcases NewSlackConfigFromEnv_cases env with ⟨ha, hr⟩ | ⟨a, ha, hb, hr⟩ |
    ⟨a, b, ha, hb, hc, hr⟩ | ⟨a, b, c, ha, hb, hc, _⟩
  · exact ⟨"SLACK_APP_TOKEN", by simp [ha], by rw [hr]; rfl⟩
  · exact ⟨"SLACK_AUTH_TOKEN", by simp [ha, hb], by rw [hr]; rfl⟩
  · exact ⟨"SLACK_CHANNEL_ID", by simp [ha, hb, hc], by rw [hr]; rfl⟩
  · obtain ⟨w, hw, hnone⟩ := h
    simp only [requiredVars, List.mem_cons, List.mem_singleton, List.not_mem_nil,
      or_false] at hw
    rcases hw with rfl | rfl | rfl
    · rw [ha] at hnone; cases hnone
    · rw [hb] at hnone; cases hnone
    · rw [hc] at hnone; cases hnone

/-- C3 at an environment where the first two variables are absent and the third
is set: the error names SLACK_APP_TOKEN. -/
theorem error_names_first_absent_witness :
    ∃ v, firstAbsent envOnlyChannel requiredVars = some v
      ∧ (NewSlackConfigFromEnv envOnlyChannel).2 = some ⟨notSetMessage v⟩ :=
  error_names_first_absent envOnlyChannel ⟨"SLACK_AUTH_TOKEN", by decide, by decide⟩

/-- C4 as stated fails: with SLACK_APP_TOKEN set to the empty string and the
other two variables set, the loader returns no error and a configuration whose
application token is empty, so the invariant does not hold. -/
theorem success_with_empty_field :
    (NewSlackConfigFromEnv envEmptyAppToken).2 = none
      ∧ (NewSlackConfigFromEnv envEmptyAppToken).1.appToken = ""
      ∧ ¬ (NewSlackConfigFromEnv envEmptyAppToken).1.allNonEmpty := by
  decide

/-- C4, amended: a configuration returned without an error holds the values the
three variables are set to, and it satisfies the invariant (no field empty)
exactly when none of the three variables is set to the empty string. -/
theorem success_invariant_iff_no_empty_value (env : Env)
    (h : (NewSlackConfigFromEnv env).2 = none) :
    env "SLACK_APP_TOKEN" = some (NewSlackConfigFromEnv env).1.appToken
      ∧ env "SLACK_AUTH_TOKEN" = some (NewSlackConfigFromEnv env).1.authToken
      ∧ env "SLACK_CHANNEL_ID" = some (NewSlackConfigFromEnv env).1.channelID
      ∧ ((NewSlackConfigFromEnv env).1.allNonEmpty ↔
          (env "SLACK_APP_TOKEN" ≠ some "" ∧ env "SLACK_AUTH_TOKEN" ≠ some ""
            ∧ env "SLACK_CHANNEL_ID" ≠ some "")) := by
  rcases NewSlackConfigFromEnv_cases env with ⟨_, hr⟩ | ⟨a, _, _, hr⟩ |
    ⟨a, b, _, _, _, hr⟩ | ⟨a, b, c, ha, hb, hc, hr⟩
  · rw [hr] at h; cases h
  · rw [hr] at h; cases h
  · rw [hr] at h; cases h
  · rw [hr, ha, hb, hc]
    simp [SlackConfig.allNonEmpty]

/-- C4, amended, at an environment with three non-empty values. -/
theorem success_invariant_iff_no_empty_value_witness :
    envFull "SLACK_APP_TOKEN" = some (NewSlackConfigFromEnv envFull).1.appToken
      ∧ envFull "SLACK_AUTH_TOKEN" = some (NewSlackConfigFromEnv envFull).1.authToken
      ∧ envFull "SLACK_CHANNEL_ID" = some (NewSlackConfigFromEnv envFull).1.channelID
      ∧ ((NewSlackConfigFromEnv envFull).1.allNonEmpty ↔
          (envFull "SLACK_APP_TOKEN" ≠ some "" ∧ envFull "SLACK_AUTH_TOKEN" ≠ some ""
            ∧ envFull "SLACK_CHANNEL_ID" ≠ some "")) :=
  success_invariant_iff_no_empty_value envFull (by decide)

/-- C5: whenever `NewSlackConfigFromEnv` returns an error, the configuration
returned with it is the zero value `SlackConfig{}`, all three fields empty, also
when earlier variables were set. -/
theorem error_returns_zero_config (env : Env)
    (h : (NewSlackConfigFromEnv env).2 ≠ none) :
    (NewSlackConfigFromEnv env).1 = SlackConfig.zero
      ∧ (NewSlackConfigFromEnv env).1.appToken = ""
      ∧ (NewSlackConfigFromEnv env).1.authToken = ""
      ∧ (NewSlackConfigFromEnv env).1.channelID = "" := by
  rcases NewSlackConfigFromEnv_cases env with ⟨_, hr⟩ | ⟨a, _, _, hr⟩ |
    ⟨a, b, _, _, _, hr⟩ | ⟨a, b, c, _, _, _, hr⟩
  · rw [hr]; exact ⟨rfl, rfl, rfl, rfl⟩
  · rw [hr]; exact ⟨rfl, rfl, rfl, rfl⟩
  · rw [hr]; exact ⟨rfl, rfl, rfl, rfl⟩
  · rw [hr] at h; exact absurd rfl h

/-- C5 at an environment where the application token is set and the
authentication token is absent: nothing of the application token is returned. -/
theorem error_returns_zero_config_witness :
    (NewSlackConfigFromEnv envNoAuth).1 = SlackConfig.zero
      ∧ (NewSlackConfigFromEnv envNoAuth).1.appToken = ""
      ∧ (NewSlackConfigFromEnv envNoAuth).1.authToken = ""
      ∧ (NewSlackConfigFromEnv envNoAuth).1.channelID = "" :=
  error_returns_zero_config envNoAuth (by decide)

/-- C10: `NewSlackConfigFromEnv` returns an error if and only if at least one of
the three variables is not set; a variable that is set counts as present
whatever its value, so with all three set the call succeeds with the fields
equal to the values, the empty string included. -/
theorem fails_iff_some_variable_unset (env : Env) :
    ((NewSlackConfigFromEnv env).2 ≠ none ↔ ∃ v ∈ requiredVars, env v = none)
      ∧ ∀ a b c : String, env "SLACK_APP_TOKEN" = some a →
          env "SLACK_AUTH_TOKEN" = some b → env "SLACK_CHANNEL_ID" = some c →
          NewSlackConfigFromEnv env
            = ({ appToken := a, authToken := b, channelID := c }, none) := by
  refine ⟨?_, fun a b c ha hb hc => NewSlackConfigFromEnv_all_set env a b c ha hb hc⟩
  rcases NewSlackConfigFromEnv_cases env with ⟨ha, hr⟩ | ⟨a, ha, hb, hr⟩ |
    ⟨a, b, ha, hb, hc, hr⟩ | ⟨a, b, c, ha, hb, hc, hr⟩
  · rw [hr]
    exact ⟨fun _ => ⟨"SLACK_APP_TOKEN", by simp [requiredVars], ha⟩, fun _ => by simp⟩
  · rw [hr]
    exact ⟨fun _ => ⟨"SLACK_AUTH_TOKEN", by simp [requiredVars], hb⟩, fun _ => by simp⟩
  · rw [hr]
    exact ⟨fun _ => ⟨"SLACK_CHANNEL_ID", by simp [requiredVars], hc⟩, fun _ => by simp⟩
  · rw [hr]
    constructor
    · intro hne; exact absurd rfl hne
    · rintro ⟨w, hw, hnone⟩
      simp only [requiredVars, List.mem_cons, List.mem_singleton, List.not_mem_nil,
        or_false] at hw
      rcases hw with rfl | rfl | rfl
      · rw [ha] at hnone; cases hnone
      · rw [hb] at hnone; cases hnone
      · rw [hc] at hnone; cases hnone

/-- C10 at an environment whose channel is set to the empty string: the call
succeeds and the channel field is the empty string. -/
theorem fails_iff_some_variable_unset_witness :
    ((NewSlackConfigFromEnv envEmptyChannel).2 ≠ none
        ↔ ∃ v ∈ requiredVars, envEmptyChannel v = none)
      ∧ NewSlackConfigFromEnv envEmptyChannel
          = ({ appToken := "a", authToken := "b", channelID := "" }, none) :=
  ⟨(fails_iff_some_variable_unset envEmptyChannel).1,
   (fails_iff_some_variable_unset envEmptyChannel).2 "a" "b" "" (by decide) (by decide)
    (by decide)⟩

/-! ## Lemmas on the trace -/

lemma entriesOn_append {Ctx : Type} (l : Logger) (t u : Trace Ctx) :
    entriesOn l (t ++ u) = entriesOn l t ++ entriesOn l u := by
  simp [entriesOn, List.filterMap_append]

lemma entriesAt_append {Ctx : Type} (l : Logger) (lvl : Level) (t u : Trace Ctx) :
    entriesAt l lvl (t ++ u) = entriesAt l lvl t ++ entriesAt l lvl u := by
  simp [entriesAt, entriesOn_append]

lemma runContextCalls_append {Ctx : Type} (t u : Trace Ctx) :
    runContextCalls (t ++ u) = runContextCalls t ++ runContextCalls u := by
  simp [runContextCalls, List.filterMap_append]

/-- A list of events that are all debug-level log entries holds no info-level
entry and no `RunContext` call. -/
lemma debug_entries_only {Ctx : Type} (l : Logger) (cb : Trace Ctx)
    (h : ∀ e ∈ cb, ∃ entry : LogEntry, e = Event.log entry ∧ entry.level = Level.debug) :
    entriesAt l Level.info cb = [] ∧ runContextCalls cb = [] := by
  induction cb with
  | nil => exact ⟨rfl, rfl⟩
  | cons e rest ih =>
    obtain ⟨entry, rfl, hlvl⟩ := h e (List.mem_cons_self _ _)
    have hrest := ih (fun e he => h e (List.mem_cons_of_mem _ he))
    have h1 : entriesAt l Level.info (Event.log entry :: rest)
        = entriesAt l Level.info [Event.log entry] ++ entriesAt l Level.info rest :=
      entriesAt_append l Level.info [Event.log entry] rest
    have h2 : runContextCalls (Event.log entry :: rest)
        = runContextCalls [Event.log entry] ++ runContextCalls rest :=
      runContextCalls_append [Event.log entry] rest
    rw [h1, h2, hrest.1, hrest.2]
    constructor
    · by_cases hl : entry.logger = l
      · simp [entriesAt, entriesOn, hl, hlvl]
      · simp [entriesAt, entriesOn, hl]
    · simp [runContextCalls]

/-- One line of the library adds nothing or one debug-level entry. -/
lemma libOutput_appends_debug {Ctx : Type} (globalLevel : Level) (c : SocketmodeClient)
    (line : LibLine) (t : Trace Ctx) :
    ∃ cb : Trace Ctx, libOutput globalLevel c line t = t ++ cb
      ∧ ∀ e ∈ cb, ∃ entry : LogEntry, e = Event.log entry ∧ entry.level = Level.debug := by
  unfold libOutput
  cases c.adapter line.layer with
  | none => exact ⟨[], by simp, by simp⟩
  | some d =>
    by_cases hs : d.logger.should globalLevel Level.debug = true
    · exact ⟨[Event.log { logger := d.logger, level := Level.debug, message := line.msg }],
        by simp [debugLogger.Output, Logger.msg, hs], by simp⟩
    · exact ⟨[], by simp [debugLogger.Output, Logger.msg, hs], by simp⟩

/-- The lines of the library add debug-level entries only. -/
lemma lines_append_debug {Ctx : Type} (globalLevel : Level) (c : SocketmodeClient)
    (lines : List LibLine) (t : Trace Ctx) :
    ∃ cb : Trace Ctx,
      lines.foldl (fun acc line => libOutput globalLevel c line acc) t = t ++ cb
      ∧ ∀ e ∈ cb, ∃ entry : LogEntry, e = Event.log entry ∧ entry.level = Level.debug := by
  induction lines generalizing t with
  | nil => exact ⟨[], by simp, by simp⟩
  | cons line rest ih =>
    obtain ⟨cb₁, h₁, hd₁⟩ := libOutput_appends_debug globalLevel c line t
    obtain ⟨cb₂, h₂, hd₂⟩ := ih (libOutput globalLevel c line t)
    refine ⟨cb₁ ++ cb₂, ?_, ?_⟩
    · rw [List.foldl_cons, h₂, h₁, List.append_assoc]
    · intro e he
      rcases List.mem_append.mp he with h | h
      · exact hd₁ e h
      · exact hd₂ e h

/-- The trace after `Run`: the startup entry when the logger admits info level,
the `RunContext` call, then debug-level entries of the library's lines. -/
lemma Run_trace {Ctx : Type} (lib : SocketmodeClient → Ctx → List LibLine × Option GoError)
    (globalLevel : Level) (client : SocketmodeClient) (logger : Logger) (ctx : Ctx)
    (t : Trace Ctx) :
    ∃ cb : Trace Ctx,
      ((NewSlackBot lib globalLevel client logger).Run ctx t).2
        = logger.msg globalLevel Level.info "🚀 Starting Slack Server" t
            ++ [Event.runContext client ctx] ++ cb
      ∧ ∀ e ∈ cb, ∃ entry : LogEntry, e = Event.log entry ∧ entry.level = Level.debug := by
  obtain ⟨cb, hcb, hd⟩ := lines_append_debug globalLevel client (lib client ctx).1
    (logger.msg globalLevel Level.info "🚀 Starting Slack Server" t
      ++ [Event.runContext client ctx])
  exact ⟨cb, by simpa [NewSlackBot, SlackServer.Run, SocketmodeClient.RunContext] using hcb, hd⟩

/-! ## Debug adapter, bot runner and client factory: the claims -/

/-- C6 as stated fails: on a logger whose minimum level is info, `Output`
returns without writing anything, so there is no debug entry on the bound
logger. -/
theorem output_filtered_writes_nothing :
    (debugLogger.Output Level.trace { logger := infoLevelLogger } 0 "hello"
        ([] : Trace Nat)).2
        = []
      ∧ entriesOn infoLevelLogger
          (debugLogger.Output Level.trace { logger := infoLevelLogger } 0
            "hello" ([] : Trace Nat)).2 = [] := by
  decide

/-- C6, amended: `Output(i, msg)` returns no error for every bound logger; when
the bound logger admits debug level (it has a writer and neither its level nor
the global level is above debug) exactly one entry is written through it, at
debug level and with message msg; when it does not, nothing is written. -/
theorem output_logs_one_debug_entry {Ctx : Type} (globalLevel : Level) (l : debugLogger)
    (i : Int) (msg : String) (t : Trace Ctx) :
    (l.Output globalLevel i msg t).1 = none
      ∧ (l.logger.should globalLevel Level.debug = true →
          (l.Output globalLevel i msg t).2
              = t ++ [Event.log { logger := l.logger, level := Level.debug, message := msg }]
            ∧ entriesOn l.logger (l.Output globalLevel i msg t).2
              = entriesOn l.logger t
                ++ [{ logger := l.logger, level := Level.debug, message := msg }])
      ∧ (l.logger.should globalLevel Level.debug = false →
          (l.Output globalLevel i msg t).2 = t) := by
  refine ⟨rfl, ?_, ?_⟩
  · intro h
    have ht : (l.Output globalLevel i msg t).2
        = t ++ [Event.log { logger := l.logger, level := Level.debug, message := msg }] := by
      simp [debugLogger.Output, Logger.msg, h]
    refine ⟨ht, ?_⟩
    rw [ht, entriesOn_append]
    simp [entriesOn]
  · intro h
    simp [debugLogger.Output, Logger.msg, h]

/-- C6, amended, at a logger of minimum level debug with an empty trace. -/
theorem output_logs_one_debug_entry_witness :
    (debugLogger.Output Level.trace { logger := debugLevelLogger } 5 "hello"
        ([] : Trace Nat)).2
        = ([] : Trace Nat)
            ++ [Event.log { logger := debugLevelLogger, level := Level.debug,
                            message := "hello" }]
      ∧ entriesOn debugLevelLogger
          (debugLogger.Output Level.trace { logger := debugLevelLogger } 5
            "hello" ([] : Trace Nat)).2
        = entriesOn debugLevelLogger ([] : Trace Nat)
            ++ [{ logger := debugLevelLogger, level := Level.debug, message := "hello" }] :=
  (output_logs_one_debug_entry Level.trace { logger := debugLevelLogger } 5 "hello" []).2.1
    (by decide)

/-- C7: `Output` ignores its call-depth argument: for two call depths i and j,
the same logger and the same message give the same result and the same log
output. -/
theorem output_ignores_call_depth {Ctx : Type} (globalLevel : Level) (l : debugLogger)
    (i j : Int) (msg : String) (t : Trace Ctx) :
    l.Output globalLevel i msg t = l.Output globalLevel j msg t := by
  rfl

/-- C8 as stated fails: on a logger whose minimum level is warn, `Run` writes no
startup entry; the trace starts with the `RunContext` call and nothing at all
is written through that logger. -/
theorem run_filtered_writes_no_startup_entry :
    (((NewSlackBot sampleLib Level.trace sampleClient warnLevelLogger).Run 7 []).2).head?
        = some (Event.runContext sampleClient 7)
      ∧ entriesOn warnLevelLogger
          ((NewSlackBot sampleLib Level.trace sampleClient warnLevelLogger).Run 7 []).2 = [] := by
  decide

/-- C8, amended: `Run(ctx)` on the bot built by `NewSlackBot(client, logger)`
calls the client's `RunContext` once, with the same ctx, and returns the error
of that call unchanged, for every logger. When the logger admits info level,
exactly one info-level entry, the startup notice, is written through it, before
the call; when it does not, no info-level entry is written. Whatever follows the
call is debug-level entries of the library's own lines. -/
theorem run_logs_then_delegates {Ctx : Type}
    (lib : SocketmodeClient → Ctx → List LibLine × Option GoError) (globalLevel : Level)
    (client : SocketmodeClient) (logger : Logger) (ctx : Ctx) (t : Trace Ctx) :
    ((NewSlackBot lib globalLevel client logger).Run ctx t).1 = (lib client ctx).2
      ∧ runContextCalls ((NewSlackBot lib globalLevel client logger).Run ctx t).2
          = runContextCalls t ++ [(client, ctx)]
      ∧ (logger.should globalLevel Level.info = true →
          (∃ cb : Trace Ctx,
            ((NewSlackBot lib globalLevel client logger).Run ctx t).2
              = t ++ [Event.log { logger := logger, level := Level.info,
                                  message := "🚀 Starting Slack Server" },
                      Event.runContext client ctx] ++ cb
            ∧ ∀ e ∈ cb, ∃ entry : LogEntry, e = Event.log entry ∧ entry.level = Level.debug)
          ∧ entriesAt logger Level.info
              ((NewSlackBot lib globalLevel client logger).Run ctx t).2
            = entriesAt logger Level.info t
                ++ [{ logger := logger, level := Level.info,
                      message := "🚀 Starting Slack Server" }])
      ∧ (logger.should globalLevel Level.info = false →
          (∃ cb : Trace Ctx,
            ((NewSlackBot lib globalLevel client logger).Run ctx t).2
              = t ++ [Event.runContext client ctx] ++ cb
            ∧ ∀ e ∈ cb, ∃ entry : LogEntry, e = Event.log entry ∧ entry.level = Level.debug)
          ∧ entriesAt logger Level.info
              ((NewSlackBot lib globalLevel client logger).Run ctx t).2
            = entriesAt logger Level.info t) := by
  obtain ⟨cb, hcb, hd⟩ := Run_trace lib globalLevel client logger ctx t
  have hdebug := debug_entries_only logger cb hd
  refine ⟨rfl, ?_, ?_, ?_⟩
  · rw [hcb, runContextCalls_append, runContextCalls_append, hdebug.2]
    by_cases hs : logger.should globalLevel Level.info = true
    · simp [Logger.msg, hs, runContextCalls, List.filterMap_append]
    · simp [Logger.msg, hs, runContextCalls]
  · intro hs
    have ht : ((NewSlackBot lib globalLevel client logger).Run ctx t).2
        = t ++ [Event.log { logger := logger, level := Level.info,
                            message := "🚀 Starting Slack Server" },
                Event.runContext client ctx] ++ cb := by
      rw [hcb]; simp [Logger.msg, hs]
    refine ⟨⟨cb, ht, hd⟩, ?_⟩
    rw [ht, entriesAt_append, entriesAt_append, hdebug.1]
    simp [entriesAt, entriesOn]
  · intro hs
    have ht : ((NewSlackBot lib globalLevel client logger).Run ctx t).2
        = t ++ [Event.runContext client ctx] ++ cb := by
      rw [hcb]; simp [Logger.msg, hs]
    refine ⟨⟨cb, ht, hd⟩, ?_⟩
    rw [ht, entriesAt_append, entriesAt_append, hdebug.1]
    simp [entriesAt, entriesOn]

/-- C8, amended, at a client built by the factory, a library that logs two
lines and returns an error, and a logger of minimum level debug. -/
theorem run_logs_then_delegates_witness :
    ((NewSlackBot sampleLib Level.trace sampleClient debugLevelLogger).Run 7 []).1
        = some { msg := "context canceled" }
      ∧ entriesAt debugLevelLogger Level.info
          ((NewSlackBot sampleLib Level.trace sampleClient debugLevelLogger).Run 7 []).2
        = entriesAt debugLevelLogger Level.info ([] : Trace Nat)
            ++ [{ logger := debugLevelLogger, level := Level.info,
                  message := "🚀 Starting Slack Server" }] :=
  ⟨(run_logs_then_delegates sampleLib Level.trace sampleClient debugLevelLogger 7 []).1,
   ((run_logs_then_delegates sampleLib Level.trace sampleClient debugLevelLogger 7 []).2.2.1
      (by decide)).2⟩

/-- C9: `NewSlackClient` builds the API client with `config.authToken` as the
authentication token and `config.appToken` as the application-level token,
with debug on for the API client and for the socket-mode client, and with both
logging through one and the same adapter; the logger bound in that adapter is
the given logger (same writer and level) with the field bot = "slack_socket"
added to its fields. -/
theorem client_built_from_config (config : SlackConfig) (logger : Logger) :
    (NewSlackClient config logger).api.token = config.authToken
      ∧ (NewSlackClient config logger).api.appLevelToken = config.appToken
      ∧ (NewSlackClient config logger).api.debug = true
      ∧ (NewSlackClient config logger).debug = true
      ∧ ∃ d : debugLogger,
          (NewSlackClient config logger).api.log = some d
          ∧ (NewSlackClient config logger).log = some d
          ∧ d.logger.fields = logger.fields ++ [("bot", "slack_socket")]
          ∧ ("bot", "slack_socket") ∈ d.logger.fields
          ∧ d.logger.writer = logger.writer
          ∧ d.logger.level = logger.level := by
  refine ⟨?_, ?_, ?_, ?_, newDebugLogger (logger.withStr "bot" "slack_socket"), ?_⟩ <;>
    simp [NewSlackClient, slackNew, socketmodeNew, SlackOption.apply, SocketmodeOption.apply,
      Logger.withStr, newDebugLogger]

end Transport
